import Mathlib

/-!
Shallow embedding of the task-queue broker core (Go sources under
`internal/task`, `internal/worker`, `internal/queue`).  Machine time is
modelled as an abstract integer `now` passed explicitly to every operation
that stamps a timestamp; store calls (Redis) are modelled as an effect
trace, with the store assumed to accept each call (store outages are out
of scope for these claims).  Durations and the float arithmetic of the
backoff computation are modelled over `ℚ`, with the jitter draw
`U(-1,+1)` an explicit parameter.
-/

namespace TaskQueue

/-- Task states, mirroring `task.State` in `internal/task/state.go`. -/
inductive TState where
  | pending
  | scheduled
  | running
  | completed
  | failed
  | retrying
  | cancelled
  | deadLetter
deriving DecidableEq, Repr, Fintype

/-- Priority levels, mirroring `task.Priority`. -/
inductive Priority where
  | low
  | normal
  | high
  | critical
deriving DecidableEq, Repr, Fintype

/-- `Priority.String` from the source. -/
def Priority.toStr : Priority → String
  | .low => "low"
  | .normal => "normal"
  | .high => "high"
  | .critical => "critical"

/-- `Priority.StreamName(prefix)`: `prefix + ":" + p.String()`. -/
def Priority.streamName (p : Priority) (pre : String) : String :=
  pre ++ ":" ++ p.toStr

/-- Error kinds surfaced by the task package (`state.go` error values). -/
inductive TQError where
  | invalidTransition
  | invalidTaskData
  | taskNotFound
  | taskAlreadyExists
deriving DecidableEq, Repr

/-- The Task record (`task.Task`); payload, result and metadata are opaque
to the core and are modelled as strings / association lists.  Timestamps
are abstract integers; `timeout` is an abstract duration. -/
structure Task where
  id : String
  taskType : String
  payload : String
  priority : Priority
  state : TState
  attempts : Int
  maxRetries : Int
  error : String
  result : Option String
  workerID : String
  createdAt : Int
  updatedAt : Int
  startedAt : Option Int
  completedAt : Option Int
  scheduledAt : Option Int
  timeout : Int
  metadata : List (String × String)
deriving DecidableEq, Repr

/-- `ValidTransitions` map from `state.go`. -/
def ValidTransitions : TState → List TState
  | .pending => [.scheduled, .running, .cancelled]
  | .scheduled => [.pending, .running, .cancelled]
  | .running => [.completed, .failed, .retrying, .cancelled]
  | .retrying => [.running, .failed, .deadLetter, .cancelled]
  | .failed => [.retrying, .deadLetter, .pending]
  | .completed => []
  | .cancelled => []
  | .deadLetter => [.pending]

/-- `State.CanTransitionTo`: membership in the valid-transition list. -/
def canTransitionTo (s target : TState) : Bool :=
  (ValidTransitions s).contains target

/-- `State.IsFinal`. -/
def TState.isFinal : TState → Bool
  | .completed | .failed | .cancelled | .deadLetter => true
  | _ => false

/-- `Task.CanRetry`: `t.Attempts < t.MaxRetries`. -/
def Task.canRetry (t : Task) : Bool :=
  t.attempts < t.maxRetries

/-- The field updates performed by a successful `StateMachine.Transition`:
set `State`, `UpdatedAt`, and the state-specific timestamps. -/
def applyTransition (t : Task) (target : TState) (now : Int) : Task :=
  { t with
    state := target
    updatedAt := now
    startedAt := if target = .running then some now else t.startedAt
    completedAt :=
      if target = .completed ∨ target = .failed ∨ target = .cancelled ∨
          target = .deadLetter then some now else t.completedAt }

/-- `StateMachine.Transition`: validates against `CanTransitionTo` and, on
success, mutates the task.  The returned pair carries the error (if any)
and the task as left by the call, mirroring the in-place mutation of the
Go receiver. -/
def transition (t : Task) (target : TState) (now : Int) :
    Option TQError × Task :=
  if canTransitionTo t.state target then
    (none, applyTransition t target now)
  else
    (some .invalidTransition, t)

/-- `StateMachine.Start(workerID)`: transition to running, then set
`WorkerID` and `IncrementAttempts` (which also stamps `UpdatedAt`). -/
def start (t : Task) (workerID : String) (now : Int) :
    Option TQError × Task :=
  match transition t .running now with
  | (some e, t') => (some e, t')
  | (none, t') =>
      (none, { t' with workerID := workerID, attempts := t'.attempts + 1,
                       updatedAt := now })

/-- `StateMachine.Complete(result)`. -/
def complete (t : Task) (result : String) (now : Int) :
    Option TQError × Task :=
  match transition t .completed now with
  | (some e, t') => (some e, t')
  | (none, t') => (none, { t' with result := some result, error := "" })

/-- `StateMachine.Fail(errMsg)`. -/
def fail (t : Task) (errMsg : String) (now : Int) :
    Option TQError × Task :=
  match transition t .failed now with
  | (some e, t') => (some e, t')
  | (none, t') => (none, { t' with error := errMsg })

/-- `StateMachine.Retry`: dead-letter when the task is out of retries,
else transition to retrying. -/
def retryOp (t : Task) (now : Int) : Option TQError × Task :=
  if ¬ t.canRetry then transition t .deadLetter now
  else transition t .retrying now

/-- `StateMachine.Cancel`. -/
def cancel (t : Task) (now : Int) : Option TQError × Task :=
  transition t .cancelled now

/-- `StateMachine.MoveToDLQ`. -/
def moveToDLQ (t : Task) (now : Int) : Option TQError × Task :=
  transition t .deadLetter now

/-- `StateMachine.Requeue`: resets `WorkerID`, `Attempts`, `Error`,
`StartedAt`, `CompletedAt` and only then attempts the transition to
pending; the resets survive a failed transition, as in the source. -/
def requeue (t : Task) (now : Int) : Option TQError × Task :=
  transition
    { t with workerID := "", attempts := 0, error := "",
             startedAt := none, completedAt := none }
    .pending now

/-- Abstract trace of store (Redis) calls issued by the queue, DLQ,
scheduler and worker pool.  `persist` is a Set of the task record
(`Enqueue`/`UpdateTask`), `append` an XAdd of `{task_id, type}` to a
priority stream, `ackMsg` an XAck, `dlqAppend`/`dlqSAdd` the DLQ stream
append and set insert, `zrem` a removal from the delayed index. -/
inductive Effect where
  | persist (t : Task)
  | append (stream : String) (taskId : String) (taskType : String)
  | ackMsg (stream : String) (msgId : String)
  | dlqAppend (taskId : String) (taskType : String) (reason : String)
      (origError : String)
  | dlqSAdd (taskId : String)
  | zrem (taskId : String)
deriving DecidableEq, Repr

/-- `RedisQueue.Enqueue` (store-success path): Set the task record, then
XAdd `{task_id, type}` to the stream of the task's priority. -/
def enqueue (pre : String) (t : Task) : List Effect :=
  [.persist t, .append (t.priority.streamName pre) t.id t.taskType]

/-- `RedisQueue.Acknowledge`: XAck on the stream of the task's priority. -/
def acknowledge (pre : String) (t : Task) (msgId : String) : Effect :=
  .ackMsg (t.priority.streamName pre) msgId

/-- `DLQ.Add`: `MoveToDLQ`, forcing `State = dead_letter` (stamping only
`UpdatedAt`) when the transition is invalid; then append the quarantine
entry to the DLQ stream and add the id to the DLQ set. -/
def dlqAdd (t : Task) (reason : String) (now : Int) : Task × List Effect :=
  let t' :=
    match moveToDLQ t now with
    | (none, u) => u
    | (some _, _) => { t with state := .deadLetter, updatedAt := now }
  (t', [.dlqAppend t'.id t'.taskType reason t'.error, .dlqSAdd t'.id])

/-- `Retryer.PrepareForRequeue`: run `Retry()` discarding its error, then
force `State = pending`, clear `ScheduledAt`, stamp `UpdatedAt`. -/
def prepareForRequeue (t : Task) (now : Int) : Task :=
  let t1 := (retryOp t now).2
  { t1 with state := .pending, scheduledAt := none, updatedAt := now }

/-- `Pool.handleTaskFailure`: when the task can still retry, run
`Retry()`, record the error, persist, re-enqueue via
`PrepareForRequeue` + `Enqueue`, then ack; otherwise `Fail`, persist,
`DLQ.Add` with reason "max retries exceeded", then ack. -/
def handleTaskFailure (pre : String) (t : Task) (msgId errMsg : String)
    (now : Int) : Task × List Effect :=
  if t.canRetry then
    let t1 := (retryOp t now).2
    let t2 := { t1 with error := errMsg }
    let t3 := prepareForRequeue t2 now
    (t3, .persist t2 :: enqueue pre t3 ++ [acknowledge pre t3 msgId])
  else
    let t1 := (fail t errMsg now).2
    let (t2, dlqEffs) := dlqAdd t1 "max retries exceeded" now
    (t2, .persist t1 :: dlqEffs ++ [acknowledge pre t2 msgId])

/-- One iteration of `Pool.recoverOrphanedTasks` for a reclaimed task:
`PrepareForRequeue`, `Enqueue`, then ack the old stream message. -/
def recoverOne (pre : String) (t : Task) (msgId : String) (now : Int) :
    Task × List Effect :=
  let t1 := prepareForRequeue t now
  (t1, enqueue pre t1 ++ [acknowledge pre t1 msgId])

/-- Outcome of the blocking XReadGroup inside `DequeueBlocking`: the
store failed, the block timeout elapsed, or a message arrived on
`stream` carrying an optional (possibly missing/ill-typed) `task_id`
value. -/
inductive ReadResult where
  | storeErr (e : String)
  | timeout
  | msg (stream : String) (msgId : String) (taskId : Option String)
deriving DecidableEq, Repr

/-- `RedisQueue.DequeueBlocking`: the first component is the error
returned to the caller (only a store read failure produces one); the
second the claimed `(task, stream_message_id)`, the third the trace of
store calls.  The arriving message's `task_id` is resolved through the
record store (`lookup`, where `none` covers both an absent record and an
unparseable one); a message that cannot be resolved is acked and
dropped, a timeout yields no task; neither is an error. -/
def dequeueBlocking (res : ReadResult) (lookup : String → Option Task) :
    Option String × Option (Task × String) × List Effect :=
  match res with
  | .storeErr e => (some e, none, [])
  | .timeout => (none, none, [])
  | .msg stream msgId none => (none, none, [.ackMsg stream msgId])
  | .msg stream msgId (some taskId) =>
      match lookup taskId with
      | none => (none, none, [.ackMsg stream msgId])
      | some t => (none, some (t, msgId), [])

/-- `Scheduler.activateTask` for one due entry of the delayed index:
missing record or non-scheduled state remove the entry and stop;
otherwise transition scheduled → pending, persist, append to the priority
stream, remove from the index, in that order. -/
def activateTask (pre : String) (taskId : String)
    (lookup : String → Option Task) (now : Int) : List Effect :=
  match lookup taskId with
  | none => [.zrem taskId]
  | some t =>
      if t.state ≠ .scheduled then [.zrem taskId]
      else
        match transition t .pending now with
        | (some _, _) => []
        | (none, t1) =>
            [.persist t1, .append (t1.priority.streamName pre) t1.id
              t1.taskType, .zrem taskId]

/-- `task.RetryPolicy`; durations and the float arithmetic of
`CalculateBackoff` are modelled over `ℚ`. -/
structure RetryPolicy where
  maxAttempts : Int
  initialBackoff : ℚ
  maxBackoff : ℚ
  backoffFactor : ℚ
  jitterFactor : ℚ
deriving DecidableEq, Repr

/-- `DefaultRetryPolicy` (durations in seconds). -/
def defaultRetryPolicy : RetryPolicy :=
  { maxAttempts := 3, initialBackoff := 1, maxBackoff := 300,
    backoffFactor := 2, jitterFactor := 1/10 }

/-- `RetryPolicy.CalculateBackoff`; `u` models the jitter draw
`rand.Float64()*2 - 1 ∈ [-1, +1]`.  Non-positive attempts return the
initial backoff; the exponential base is capped at `maxBackoff`; jitter
is added only when `jitterFactor > 0`; a negative result is replaced by
the initial backoff. -/
def calculateBackoff (p : RetryPolicy) (attempt : Int) (u : ℚ) : ℚ :=
  if attempt ≤ 0 then p.initialBackoff
  else
    let base := p.initialBackoff * p.backoffFactor ^ attempt.toNat
    let capped := if base > p.maxBackoff then p.maxBackoff else base
    let jittered :=
      if p.jitterFactor > 0 then capped + capped * p.jitterFactor * u
      else capped
    if jittered < 0 then p.initialBackoff else jittered

/-- `RetryPolicy.ShouldRetry`: `t.Attempts < p.MaxAttempts`. -/
def RetryPolicy.shouldRetry (p : RetryPolicy) (t : Task) : Bool :=
  t.attempts < p.maxAttempts

/-- `PriorityFromInt`: out-of-range integers coerce to normal. -/
def priorityFromInt (i : Int) : Priority :=
  if i < 0 ∨ i > 3 then .normal
  else if i = 0 then .low
  else if i = 1 then .normal
  else if i = 2 then .high
  else .critical

/-- `task.CreateTaskRequest` (the API request). -/
structure CreateTaskRequest where
  reqType : String
  payload : String
  priority : Int
  maxRetries : Int
  timeout : Int
  scheduledAt : Option Int
  metadata : List (String × String)
deriving DecidableEq, Repr

/-- `task.New`: fresh task with default `MaxRetries = 3` and default
timeout (5 minutes, in seconds); the generated UUID and clock are
parameters of the model. -/
def newTask (id taskType payload : String) (priority : Priority)
    (now : Int) : Task :=
  { id := id, taskType := taskType, payload := payload,
    priority := priority, state := .pending, attempts := 0,
    maxRetries := 3, error := "", result := none, workerID := "",
    createdAt := now, updatedAt := now, startedAt := none,
    completedAt := none, scheduledAt := none, timeout := 300,
    metadata := [] }

/-- `task.FromRequest`: builds the task through `New` with
`PriorityFromInt(req.Priority)`, then overrides retries/timeout/schedule/
metadata when the request supplies them. -/
def fromRequest (req : CreateTaskRequest) (id : String) (now : Int) :
    Task :=
  let t := newTask id req.reqType req.payload (priorityFromInt req.priority)
    now
  let t := if req.maxRetries > 0 then { t with maxRetries := req.maxRetries }
    else t
  let t := if req.timeout > 0 then { t with timeout := req.timeout } else t
  let t := match req.scheduledAt with
    | some s => { t with scheduledAt := some s }
    | none => t
  if req.metadata ≠ [] then { t with metadata := req.metadata } else t

/-- The transition table exactly as the spec lists it (spec §4.1):
pending → {scheduled, running, cancelled}; scheduled → {pending, running,
cancelled}; running → {completed, failed, retrying, cancelled}; retrying
→ {running, failed, dead_letter, cancelled}; failed → {retrying,
dead_letter, pending}; dead_letter → {pending}; completed and cancelled
terminal. -/
def specAllowedTransition : TState → TState → Bool
  | .pending, .scheduled | .pending, .running | .pending, .cancelled => true
  | .scheduled, .pending | .scheduled, .running
  | .scheduled, .cancelled => true
  | .running, .completed | .running, .failed | .running, .retrying
  | .running, .cancelled => true
  | .retrying, .running | .retrying, .failed | .retrying, .deadLetter
  | .retrying, .cancelled => true
  | .failed, .retrying | .failed, .deadLetter | .failed, .pending => true
  | .deadLetter, .pending => true
  | _, _ => false

/-- The priority conversion as the claim words it: 0,1,2,3 map to low,
normal, high, critical; every other integer maps to normal. -/
def specPriorityFromInt (i : Int) : Priority :=
  if i = 0 then .low
  else if i = 1 then .normal
  else if i = 2 then .high
  else if i = 3 then .critical
  else .normal

/-- C1: `CanTransitionTo` is total over the eight states and agrees with
the spec's transition table at every (from, to) pair, and
`StateMachine.Transition` succeeds exactly on the pairs the table allows,
returning `InvalidTransition` on every other pair. -/
theorem state_machine_total_and_matches_table :
    (∀ s target : TState,
      canTransitionTo s target = specAllowedTransition s target) ∧
    (∀ (t : Task) (target : TState) (now : Int),
      ((transition t target now).1 = none ↔
        canTransitionTo t.state target = true) ∧
      ((transition t target now).1 = some TQError.invalidTransition ↔
        canTransitionTo t.state target = false)) := by
  refine ⟨by decide, fun t target now => ?_⟩
  by_cases h : canTransitionTo t.state target <;>
    simp [transition, h]

/-- C10: `PriorityFromInt` coerces every out-of-range integer to normal
and maps 0,1,2,3 to low, normal, high, critical; `FromRequest` adopts
that coerced priority, so an out-of-range request priority is silently
accepted as normal rather than rejected. -/
theorem priority_from_int_coerces :
    (∀ i : Int, priorityFromInt i = specPriorityFromInt i) ∧
    (∀ (req : CreateTaskRequest) (id : String) (now : Int),
      (fromRequest req id now).priority = priorityFromInt req.priority) := by
  constructor
  · intro i
    simp only [priorityFromInt, specPriorityFromInt]
    split_ifs <;> first | rfl | omega
  · intro req id now
    cases h : req.scheduledAt <;>
      simp [fromRequest, newTask, h] <;> split_ifs <;> rfl

/-- A concrete task record used to instantiate the universally
quantified theorems below at specific inputs. -/
def sampleTask : Task :=
  { id := "t1", taskType := "echo", payload := "p", priority := .high,
    state := .scheduled, attempts := 0, maxRetries := 3, error := "",
    result := none, workerID := "", createdAt := 0, updatedAt := 0,
    startedAt := none, completedAt := none, scheduledAt := some 10,
    timeout := 300, metadata := [] }

/-- C8: a blocking claim whose message carries no usable `task_id`, or
whose task record is absent/unparseable, acks the message on its stream
and returns no task and no error; a block timeout returns no task and no
error. -/
theorem dequeue_blocking_discards_poison_and_timeouts :
    ∀ (lookup : String → Option Task) (stream msgId taskId : String),
      dequeueBlocking ReadResult.timeout lookup = (none, none, []) ∧
      dequeueBlocking (ReadResult.msg stream msgId none) lookup =
        (none, none, [Effect.ackMsg stream msgId]) ∧
      (lookup taskId = none →
        dequeueBlocking (ReadResult.msg stream msgId (some taskId)) lookup =
          (none, none, [Effect.ackMsg stream msgId])) := by
  intro lookup stream msgId taskId
  refine ⟨rfl, rfl, fun h => ?_⟩
  simp [dequeueBlocking, h]

/-- Witness for C8 at concrete inputs: an empty record store. -/
theorem dequeue_blocking_discards_poison_and_timeouts_witness :
    dequeueBlocking (ReadResult.msg "tasks:high" "1-0" (some "t1"))
      (fun _ => none) = (none, none, [Effect.ackMsg "tasks:high" "1-0"]) :=
  (dequeue_blocking_discards_poison_and_timeouts
    (fun _ => none) "tasks:high" "1-0" "t1").2.2 rfl

/-- C9: promotion of a due delayed-index entry removes the entry without
any stream append when the record is missing or no longer scheduled, and
otherwise transitions the task to pending, persists it, appends to the
stream of its priority, and removes the entry, in that order. -/
theorem scheduler_promotion_prevents_duplicates :
    ∀ (pre taskId : String) (lookup : String → Option Task) (now : Int),
      (lookup taskId = none →
        activateTask pre taskId lookup now = [Effect.zrem taskId]) ∧
      (∀ t, lookup taskId = some t → t.state ≠ TState.scheduled →
        activateTask pre taskId lookup now = [Effect.zrem taskId]) ∧
      (∀ t, lookup taskId = some t → t.state = TState.scheduled →
        activateTask pre taskId lookup now =
          [Effect.persist { t with state := .pending, updatedAt := now },
           Effect.append (t.priority.streamName pre) t.id t.taskType,
           Effect.zrem taskId]) := by
  intro pre taskId lookup now
  refine ⟨fun h => by simp [activateTask, h],
          fun t ht hs => by simp [activateTask, ht, hs],
          fun t ht hs => ?_⟩
  simp [activateTask, ht, hs, transition, canTransitionTo,
    ValidTransitions, applyTransition]

/-- Witness for C9 at concrete inputs: a missing record, a record already
promoted to pending, and a record still scheduled. -/
theorem scheduler_promotion_prevents_duplicates_witness :
    activateTask "tasks" "t1" (fun _ => none) 5 = [Effect.zrem "t1"] ∧
    activateTask "tasks" "t1"
      (fun _ => some { sampleTask with state := .pending }) 5 =
      [Effect.zrem "t1"] ∧
    activateTask "tasks" "t1" (fun _ => some sampleTask) 5 =
      [Effect.persist { sampleTask with state := .pending, updatedAt := 5 },
       Effect.append "tasks:high" "t1" "echo", Effect.zrem "t1"] :=
  ⟨(scheduler_promotion_prevents_duplicates "tasks" "t1"
      (fun _ => none) 5).1 rfl,
   (scheduler_promotion_prevents_duplicates "tasks" "t1"
      (fun _ => some { sampleTask with state := .pending }) 5).2.1
      _ rfl (by decide),
   (scheduler_promotion_prevents_duplicates "tasks" "t1"
      (fun _ => some sampleTask) 5).2.2 sampleTask rfl rfl⟩

/-- C3 counterexample: `DLQ.Add` on a task whose state forbids the
direct move to dead_letter (here: running) forces the state but leaves
`completed_at` unset, so the task ends in dead_letter with no
`completed_at`. -/
theorem dlq_add_forced_leaves_completed_at_unset :
    (dlqAdd { sampleTask with state := .running } "max retries exceeded"
      7).1.state = TState.deadLetter ∧
    (dlqAdd { sampleTask with state := .running } "max retries exceeded"
      7).1.completedAt = none := ⟨rfl, rfl⟩

/-- C3 (amended): every successful `StateMachine` transition into
{completed, failed, cancelled, dead_letter} sets `completed_at`, and
`DLQ.Add` always leaves the task in dead_letter, setting `completed_at`
when the transition from the starting state is valid (failed, retrying)
and leaving `completed_at` unchanged when it forces the state. -/
theorem terminal_transitions_set_completed_at :
    (∀ (t : Task) (target : TState) (now : Int),
      (transition t target now).1 = none →
      (target = TState.completed ∨ target = TState.failed ∨
        target = TState.cancelled ∨ target = TState.deadLetter) →
      ((transition t target now).2).completedAt = some now) ∧
    (∀ (t : Task) (reason : String) (now : Int),
      (dlqAdd t reason now).1.state = TState.deadLetter ∧
      (canTransitionTo t.state .deadLetter = true →
        (dlqAdd t reason now).1.completedAt = some now) ∧
      (canTransitionTo t.state .deadLetter = false →
        (dlqAdd t reason now).1.completedAt = t.completedAt)) := by
  constructor
  · intro t target now h htgt
    by_cases hc : canTransitionTo t.state target
    · simp [transition, hc, applyTransition, htgt]
    · simp [transition, hc] at h
  · intro t reason now
    by_cases hc : canTransitionTo t.state .deadLetter <;>
      simp [dlqAdd, moveToDLQ, transition, hc, applyTransition]

/-- Witness for C3 (amended) at concrete inputs: a valid transition into
failed, a `DLQ.Add` from failed (valid) and one from pending (forced). -/
theorem terminal_transitions_set_completed_at_witness :
    ((transition { sampleTask with state := .running } TState.failed
      4).2).completedAt = some 4 ∧
    (dlqAdd { sampleTask with state := .failed } "r" 4).1.completedAt =
      some 4 ∧
    (dlqAdd { sampleTask with state := .pending } "r" 4).1.completedAt =
      none :=
  ⟨terminal_transitions_set_completed_at.1
      { sampleTask with state := .running } TState.failed 4 rfl
      (Or.inr (Or.inl rfl)),
   (terminal_transitions_set_completed_at.2
      { sampleTask with state := .failed } "r" 4).2.1 rfl,
   (terminal_transitions_set_completed_at.2
      { sampleTask with state := .pending } "r" 4).2.2 rfl⟩

/-- C4 counterexample: `Requeue` on a running task returns
`InvalidTransition`, yet the task's `attempts` and `worker_id` have been
reset by the call. -/
theorem requeue_not_atomic :
    (requeue { sampleTask with state := .running, attempts := 2,
                               workerID := "w1" } 9).1 =
      some TQError.invalidTransition ∧
    (requeue { sampleTask with state := .running, attempts := 2,
                               workerID := "w1" } 9).2.attempts = 0 ∧
    (requeue { sampleTask with state := .running, attempts := 2,
                               workerID := "w1" } 9).2.workerID = "" ∧
    ({ sampleTask with state := .running, attempts := 2,
                       workerID := "w1" } : Task).attempts = 2 :=
  ⟨rfl, rfl, rfl, rfl⟩

/-- C4 (amended): `Start`, `Complete`, `Fail`, `Retry`, `Cancel` and
`MoveToDLQ` are atomic — on any error the task is unmodified — while
`Requeue` on error has already reset `worker_id`, `attempts`, `error`,
`started_at` and `completed_at`, leaving the other fields (in particular
`state`) unchanged. -/
theorem state_machine_ops_atomic_except_requeue :
    ∀ (t : Task) (w r m : String) (now : Int) (e : TQError),
      ((start t w now).1 = some e → (start t w now).2 = t) ∧
      ((complete t r now).1 = some e → (complete t r now).2 = t) ∧
      ((fail t m now).1 = some e → (fail t m now).2 = t) ∧
      ((retryOp t now).1 = some e → (retryOp t now).2 = t) ∧
      ((cancel t now).1 = some e → (cancel t now).2 = t) ∧
      ((moveToDLQ t now).1 = some e → (moveToDLQ t now).2 = t) ∧
      ((requeue t now).1 = some e → (requeue t now).2 =
        { t with workerID := "", attempts := 0, error := "",
                 startedAt := none, completedAt := none }) := by
  intro t w r m now e
  refine ⟨?_, ?_, ?_, ?_, ?_, ?_, ?_⟩ <;>
    simp only [start, complete, fail, retryOp, cancel, moveToDLQ,
      requeue, transition]
  · by_cases h : canTransitionTo t.state .running <;> simp [h]
  · by_cases h : canTransitionTo t.state .completed <;> simp [h]
  · by_cases h : canTransitionTo t.state .failed <;> simp [h]
  · by_cases hc : t.canRetry
    · by_cases h : canTransitionTo t.state .retrying <;> simp [hc, h]
    · by_cases h : canTransitionTo t.state .deadLetter <;> simp [hc, h]
  · by_cases h : canTransitionTo t.state .cancelled <;> simp [h]
  · by_cases h : canTransitionTo t.state .deadLetter <;> simp [h]
  · by_cases h : canTransitionTo t.state .pending <;> simp [h]

/-- Witness for C4 (amended) at a completed (terminal) task, where every
operation fails with `InvalidTransition`. -/
theorem state_machine_ops_atomic_except_requeue_witness :
    (start { sampleTask with state := .completed } "w" 0).2 =
      { sampleTask with state := .completed } ∧
    (cancel { sampleTask with state := .completed } 0).2 =
      { sampleTask with state := .completed } ∧
    (requeue { sampleTask with state := .completed } 0).2 =
      { sampleTask with state := .completed, workerID := "",
                        attempts := 0, error := "", startedAt := none,
                        completedAt := none } :=
  ⟨(state_machine_ops_atomic_except_requeue
      { sampleTask with state := .completed } "w" "r" "m" 0
      .invalidTransition).1 rfl,
   (state_machine_ops_atomic_except_requeue
      { sampleTask with state := .completed } "w" "r" "m" 0
      .invalidTransition).2.2.2.2.1 rfl,
   (state_machine_ops_atomic_except_requeue
      { sampleTask with state := .completed } "w" "r" "m" 0
      .invalidTransition).2.2.2.2.2.2 rfl⟩

/-- True on the DLQ stream-append effect. -/
def Effect.isDlqAppend : Effect → Bool
  | .dlqAppend _ _ _ _ => true
  | _ => false

/-- True on a priority-stream append effect. -/
def Effect.isAppend : Effect → Bool
  | .append _ _ _ => true
  | _ => false

/-- A claimed running task whose own `max_retries` (5) exceeds the retry
policy's configured `max_attempts` (3), at its fourth failure. -/
def overBudgetTask : Task :=
  { sampleTask with state := .running, attempts := 3, maxRetries := 5 }

/-- C2 counterexample: with `attempts = 3` the policy predicate
`ShouldRetry ≡ attempts < max_attempts` (default `max_attempts = 3`) is
false, so the claim demands the DLQ path; the pool instead decides by
`Task.CanRetry` (`attempts < task.max_retries = 5`) and re-submits the
task to its stream, never touching the DLQ. -/
theorem pool_ignores_policy_max_attempts :
    defaultRetryPolicy.shouldRetry overBudgetTask = false ∧
    (handleTaskFailure "tasks" overBudgetTask "1-0" "boom" 9).2.any
      Effect.isDlqAppend = false ∧
    (handleTaskFailure "tasks" overBudgetTask "1-0" "boom" 9).2.any
      Effect.isAppend = true := ⟨rfl, rfl, rfl⟩

/-- C2 (amended): the pool settles a failed execution by the task's own
retry budget, `Task.CanRetry ≡ task.attempts < task.max_retries` (not
the retry policy's `max_attempts`): when it holds the pool records the
error, persists, re-submits the task to its priority stream and acks the
original message; when it fails the pool applies `Fail`, persists, adds
the task to the DLQ with reason "max retries exceeded", and acks the
original message. -/
theorem pool_failure_settlement :
    ∀ (pre : String) (t : Task) (msgId errMsg : String) (now : Int),
      t.state = TState.running →
      (t.canRetry = true →
        (handleTaskFailure pre t msgId errMsg now).1 =
          { t with state := .pending, updatedAt := now, error := errMsg,
                   scheduledAt := none } ∧
        (handleTaskFailure pre t msgId errMsg now).2 =
          [Effect.persist { t with state := .retrying, updatedAt := now,
                                   error := errMsg },
           Effect.persist { t with state := .pending, updatedAt := now,
                                   error := errMsg, scheduledAt := none },
           Effect.append (t.priority.streamName pre) t.id t.taskType,
           Effect.ackMsg (t.priority.streamName pre) msgId]) ∧
      (t.canRetry = false →
        (handleTaskFailure pre t msgId errMsg now).1 =
          { t with state := .deadLetter, updatedAt := now,
                   completedAt := some now, error := errMsg } ∧
        (handleTaskFailure pre t msgId errMsg now).2 =
          [Effect.persist { t with state := .failed, updatedAt := now,
                                   completedAt := some now,
                                   error := errMsg },
           Effect.dlqAppend t.id t.taskType "max retries exceeded" errMsg,
           Effect.dlqSAdd t.id,
           Effect.ackMsg (t.priority.streamName pre) msgId]) := by
  intro pre t msgId errMsg now h
  constructor <;> intro hc <;>
    simp only [Task.canRetry, decide_eq_true_eq,
      decide_eq_false_iff_not] at hc <;>
    simp [handleTaskFailure, Task.canRetry, hc, retryOp, fail,
      transition, h, canTransitionTo, ValidTransitions, applyTransition,
      prepareForRequeue, dlqAdd, moveToDLQ, enqueue, acknowledge]

/-- Witness for C2 (amended) at concrete tasks: one with retry budget
left, one with the budget exhausted. -/
theorem pool_failure_settlement_witness :
    (handleTaskFailure "tasks" overBudgetTask "1-0" "boom" 9).1 =
      { overBudgetTask with state := .pending, updatedAt := 9,
                            error := "boom", scheduledAt := none } ∧
    (handleTaskFailure "tasks"
      { sampleTask with state := .running, attempts := 3 } "1-0" "boom"
      9).2 =
      [Effect.persist { sampleTask with
                          state := .failed, updatedAt := 9,
                          attempts := 3, completedAt := some 9,
                          error := "boom" },
       Effect.dlqAppend "t1" "echo" "max retries exceeded" "boom",
       Effect.dlqSAdd "t1", Effect.ackMsg "tasks:high" "1-0"] :=
  ⟨((pool_failure_settlement "tasks" overBudgetTask "1-0" "boom" 9
      rfl).1 rfl).1,
   ((pool_failure_settlement "tasks"
      { sampleTask with state := .running, attempts := 3 } "1-0" "boom" 9
      rfl).2 rfl).2⟩

/-- C7 counterexample: recovery of an orphaned running task with
`attempts = 2` and `error = "boom"` re-enqueues it still carrying
`attempts = 2` and `error = "boom"` — nothing is reset to 0 / empty. -/
theorem recovery_does_not_reset_attempts :
    (recoverOne "tasks" { sampleTask with
                            state := .running, attempts := 2,
                            error := "boom" } "1-0" 9).1.attempts = 2 ∧
    (recoverOne "tasks" { sampleTask with
                            state := .running, attempts := 2,
                            error := "boom" } "1-0" 9).1.error = "boom" ∧
    (recoverOne "tasks" { sampleTask with
                            state := .running, attempts := 2,
                            error := "boom" } "1-0" 9).1.state =
      TState.pending := ⟨rfl, rfl, rfl⟩

/-- C7 (amended): for every reclaimed task the pool applies
`Retryer.PrepareForRequeue`, which forces the state to pending and
clears `scheduled_at` while leaving `attempts`, `error` and `worker_id`
unchanged, then appends the task to its priority stream and acks the old
stream message. -/
theorem recovery_requeues_without_reset :
    ∀ (pre : String) (t : Task) (msgId : String) (now : Int),
      (recoverOne pre t msgId now).1.state = TState.pending ∧
      (recoverOne pre t msgId now).1.attempts = t.attempts ∧
      (recoverOne pre t msgId now).1.error = t.error ∧
      (recoverOne pre t msgId now).1.workerID = t.workerID ∧
      (recoverOne pre t msgId now).1.scheduledAt = none ∧
      (recoverOne pre t msgId now).2 =
        [Effect.persist (recoverOne pre t msgId now).1,
         Effect.append (t.priority.streamName pre) t.id t.taskType,
         Effect.ackMsg (t.priority.streamName pre) msgId] := by
  intro pre t msgId now
  simp only [recoverOne, prepareForRequeue, retryOp]
  by_cases hc : t.canRetry
  · by_cases h2 : canTransitionTo t.state .retrying <;>
      simp [hc, transition, h2, applyTransition, enqueue, acknowledge]
  · by_cases h2 : canTransitionTo t.state .deadLetter <;>
      simp [hc, transition, h2, applyTransition, enqueue, acknowledge]

/-- A retry policy exhibiting the missing lower clamp: initial backoff
4, no exponential growth, jitter factor 1/2. -/
def flatPolicy : RetryPolicy :=
  { maxAttempts := 3, initialBackoff := 4, maxBackoff := 100,
    backoffFactor := 1, jitterFactor := 1/2 }

/-- C5 counterexample: with jitter factor 1/2 ∈ [0,1] and jitter draw
-1 ∈ [-1,+1], the backoff for attempt 1 evaluates to 2, strictly below
`initial_backoff = 4`: the implementation only replaces a negative
result by the initial backoff, it does not clamp at the initial
backoff. -/
theorem backoff_falls_below_initial :
    (0 : ℚ) ≤ flatPolicy.jitterFactor ∧ flatPolicy.jitterFactor ≤ 1 ∧
    calculateBackoff flatPolicy 1 (-1) = 2 ∧
    calculateBackoff flatPolicy 1 (-1) < flatPolicy.initialBackoff := by
  refine ⟨by norm_num [flatPolicy], by norm_num [flatPolicy], ?_, ?_⟩ <;>
    norm_num [calculateBackoff, flatPolicy]

/-- C5 (amended): for every policy with `0 ≤ initial_backoff ≤
max_backoff`, `backoff_factor ≥ 1`, `jitter_factor ∈ [0,1]`, every
attempt number and every jitter draw in [-1,+1], the computed delay is
nonnegative and at least `initial_backoff · (1 - jitter_factor)`; the
code's lower clamp replaces only a negative value by `initial_backoff`,
so `initial_backoff` itself is a lower bound only when `jitter_factor =
0`. -/
theorem backoff_lower_bound :
    ∀ (p : RetryPolicy) (n : Int) (u : ℚ),
      0 ≤ p.initialBackoff → p.initialBackoff ≤ p.maxBackoff →
      1 ≤ p.backoffFactor → 0 ≤ p.jitterFactor → p.jitterFactor ≤ 1 →
      -1 ≤ u → u ≤ 1 →
      p.initialBackoff * (1 - p.jitterFactor) ≤ calculateBackoff p n u ∧
      0 ≤ calculateBackoff p n u := by
  intro p n u h0 h1 h2 h3 h4 h5 h6
  by_cases hn : n ≤ 0
  · simp only [calculateBackoff, hn, if_true]
    constructor <;> nlinarith
  · simp only [calculateBackoff, hn, if_false]
    have hpow : (1 : ℚ) ≤ p.backoffFactor ^ n.toNat := one_le_pow₀ h2
    have hbase : p.initialBackoff ≤
        p.initialBackoff * p.backoffFactor ^ n.toNat := by nlinarith
    set base := p.initialBackoff * p.backoffFactor ^ n.toNat with hb
    have hcap : p.initialBackoff ≤
        (if base > p.maxBackoff then p.maxBackoff else base) := by
      by_cases hc : base > p.maxBackoff <;> simp [hc] <;> linarith
    set capped := if base > p.maxBackoff then p.maxBackoff else base
      with hcdef
    have hcap0 : (0 : ℚ) ≤ capped := le_trans h0 hcap
    have hjtr : p.initialBackoff * (1 - p.jitterFactor) ≤
        (if 0 < p.jitterFactor then
          capped + capped * p.jitterFactor * u else capped) := by
      by_cases hj : 0 < p.jitterFactor
      · simp only [hj, if_true]
        nlinarith [mul_nonneg (mul_nonneg hcap0 h3)
            (by linarith : (0 : ℚ) ≤ u + 1),
          mul_nonneg (by linarith : (0 : ℚ) ≤ capped - p.initialBackoff)
            (by linarith : (0 : ℚ) ≤ 1 - p.jitterFactor)]
      · have hz : p.jitterFactor = 0 := le_antisymm (not_lt.mp hj) h3
        rw [if_neg hj, hz]
        nlinarith
    set jtr := if 0 < p.jitterFactor then
      capped + capped * p.jitterFactor * u else capped with hjdef
    by_cases hneg : jtr < 0
    · simp only [hneg, if_true]
      constructor <;> nlinarith
    · simp only [hneg, if_false]
      exact ⟨hjtr, not_lt.mp hneg⟩

/-- Witness for C5 (amended) at the default policy, attempt 1, jitter
draw +1. -/
theorem backoff_lower_bound_witness :
    defaultRetryPolicy.initialBackoff *
      (1 - defaultRetryPolicy.jitterFactor) ≤
      calculateBackoff defaultRetryPolicy 1 1 ∧
    (0 : ℚ) ≤ calculateBackoff defaultRetryPolicy 1 1 :=
  backoff_lower_bound defaultRetryPolicy 1 1
    (by norm_num [defaultRetryPolicy]) (by norm_num [defaultRetryPolicy])
    (by norm_num [defaultRetryPolicy]) (by norm_num [defaultRetryPolicy])
    (by norm_num [defaultRetryPolicy]) (by norm_num) (by norm_num)

/-- With jitter disabled and a sane configuration, the backoff for
attempt `n ≥ 1` computes exactly the capped exponential
`min(initial · factor^n, max)`. -/
theorem calculateBackoff_no_jitter (p : RetryPolicy) (n : Int) (u : ℚ)
    (hj : p.jitterFactor = 0) (hi : 0 ≤ p.initialBackoff)
    (hm : 0 ≤ p.maxBackoff) (hf : 1 ≤ p.backoffFactor) (hn : 1 ≤ n) :
    calculateBackoff p n u =
      min (p.initialBackoff * p.backoffFactor ^ n.toNat) p.maxBackoff := by
  have hn' : ¬ n ≤ 0 := by omega
  have hb0 : (0 : ℚ) ≤ p.initialBackoff * p.backoffFactor ^ n.toNat :=
    mul_nonneg hi (pow_nonneg (by linarith) _)
  simp only [calculateBackoff, hn', if_false, hj, lt_irrefl]
  by_cases hc : p.initialBackoff * p.backoffFactor ^ n.toNat > p.maxBackoff
  · simp [hc, not_lt.mpr hm, min_eq_right (le_of_lt hc)]
  · simp [hc, not_lt.mpr hb0, min_eq_left (not_lt.mp hc)]

/-- C6: with jitter disabled (`jitter_factor = 0`) and `backoff_factor ≥
1`, the backoff is monotone in the attempt number and capped: for
attempts `1 ≤ a < b`, `CalculateBackoff(a) ≤ CalculateBackoff(b) ≤
max_backoff`, and at every `n ≥ 1` it equals
`min(initial_backoff · backoff_factor^n, max_backoff)`. -/
theorem backoff_monotone_and_capped :
    ∀ (p : RetryPolicy) (a b : Int) (u v : ℚ),
      p.jitterFactor = 0 → 1 ≤ p.backoffFactor →
      0 ≤ p.initialBackoff → 0 ≤ p.maxBackoff → 1 ≤ a → a < b →
      calculateBackoff p a u ≤ calculateBackoff p b v ∧
      calculateBackoff p b v ≤ p.maxBackoff ∧
      calculateBackoff p a u =
        min (p.initialBackoff * p.backoffFactor ^ a.toNat) p.maxBackoff ∧
      calculateBackoff p b v =
        min (p.initialBackoff * p.backoffFactor ^ b.toNat) p.maxBackoff := by
  intro p a b u v hj hf hi hm ha hab
  have hb1 : 1 ≤ b := by omega
  have hea := calculateBackoff_no_jitter p a u hj hi hm hf ha
  have heb := calculateBackoff_no_jitter p b v hj hi hm hf hb1
  have hpow : p.backoffFactor ^ a.toNat ≤ p.backoffFactor ^ b.toNat :=
    pow_le_pow_right₀ hf (by omega)
  have hmono : p.initialBackoff * p.backoffFactor ^ a.toNat ≤
      p.initialBackoff * p.backoffFactor ^ b.toNat :=
    mul_le_mul_of_nonneg_left hpow hi
  refine ⟨?_, ?_, hea, heb⟩
  · rw [hea, heb]
    exact min_le_min hmono (le_refl _)
  · rw [heb]
    exact min_le_right _ _

/-- The no-jitter configuration exercised by the repository's own
backoff test: initial 1s, max 60s, factor 2. -/
def testedPolicy : RetryPolicy :=
  { maxAttempts := 5, initialBackoff := 1, maxBackoff := 60,
    backoffFactor := 2, jitterFactor := 0 }

/-- Witness for C6 at the test-suite configuration and attempts 1 < 2. -/
theorem backoff_monotone_and_capped_witness :
    calculateBackoff testedPolicy 1 0 ≤ calculateBackoff testedPolicy 2 0 ∧
    calculateBackoff testedPolicy 2 0 ≤ testedPolicy.maxBackoff ∧
    calculateBackoff testedPolicy 1 0 =
      min (testedPolicy.initialBackoff *
        testedPolicy.backoffFactor ^ (1 : Int).toNat)
        testedPolicy.maxBackoff ∧
    calculateBackoff testedPolicy 2 0 =
      min (testedPolicy.initialBackoff *
        testedPolicy.backoffFactor ^ (2 : Int).toNat)
        testedPolicy.maxBackoff :=
  backoff_monotone_and_capped testedPolicy 1 2 0 0 rfl
    (by norm_num [testedPolicy]) (by norm_num [testedPolicy])
    (by norm_num [testedPolicy]) (by norm_num) (by norm_num)

end TaskQueue
